import Mathlib

/-!
Verification of the self-update protocol of `poetry`
(`src/poetry/console/commands/self/update.py`), as a shallow embedding.

Versions are modelled as natural numbers (the source compares `Version`
objects through a linear order; only the order is relevant here), directory
contents as values of an abstract type, and the network / subprocess world as
explicit parameters recording what each external call would return.
-/

namespace Poetry

/-- A release candidate as returned by the package index: its version
(abstracted to a natural number, only the linear order matters) and its
prerelease flag (`package.is_prerelease()` in the source). -/
structure Pkg where
  version : Nat
  prerelease : Bool
deriving DecidableEq, Repr

/-- Insertion step of a descending-by-version sort.  The source sorts with
`cmp_to_key(lambda x, y: 0 if x.version == y.version else int(x.version < y.version or -1))`,
i.e. ascending in a comparator that ranks higher versions first, which orders
the list by version descending; ties between equal versions are not
constrained by any claim, so a deterministic insertion sort embeds it. -/
def insertDesc (p : Pkg) : List Pkg → List Pkg
  | [] => [p]
  | q :: qs => if p.version ≤ q.version then q :: insertDesc p qs else p :: q :: qs

/-- Descending-by-version sort of the candidate list (`packages.sort(...)`). -/
def sortDesc (l : List Pkg) : List Pkg := l.foldr insertDesc []

/-- The selection walk of `SelfUpdateCommand.handle` (lines 109-121): for each
candidate in sorted order, a prerelease is taken only when `preview` is set,
otherwise skipped; the first non-prerelease is taken unconditionally. -/
def selectWalk (preview : Bool) : List Pkg → Option Pkg
  | [] => none
  | p :: ps =>
    if p.prerelease then
      if preview then some p else selectWalk preview ps
    else
      some p

/-- The version selector: sort descending, then walk. -/
def selectRelease (preview : Bool) (packages : List Pkg) : Option Pkg :=
  selectWalk preview (sortDesc packages)

/-- Sortedness predicate for descending version order. -/
def SortedDesc (l : List Pkg) : Prop :=
  List.Pairwise (fun a b => b.version ≤ a.version) l

/-- Outcome of `SelfUpdateCommand.handle` after the index query: the three
no-op returns (each printing its own message) or a call to `update(release)`.
Each no-op path is a plain `return`, so the process exits with code 0. -/
inductive HandleOutcome
  | noReleaseFound
  | noNewRelease
  | alreadyLatest
  | startUpdate (r : Pkg)
deriving DecidableEq, Repr

/-- Control flow of `SelfUpdateCommand.handle` (lines 97-131) after
`find_packages` returned `packages`: empty list reports "No release found for
the specified version"; an empty selection reports "No new release found"; a
selection equal to the running version reports "You are using the latest
version"; otherwise `update(release)` runs. -/
def handle (currentVersion : Nat) (preview : Bool) (packages : List Pkg) :
    HandleOutcome :=
  match packages with
  | [] => HandleOutcome.noReleaseFound
  | _ :: _ =>
    match selectRelease preview packages with
    | none => HandleOutcome.noNewRelease
    | some r =>
      if r.version = currentVersion then HandleOutcome.alreadyLatest
      else HandleOutcome.startUpdate r

/-- The user-facing message printed by each no-op outcome of `handle`
(`self.line(...)` at lines 98, 124 and 128). -/
def handleMessage : HandleOutcome → Option String
  | HandleOutcome.noReleaseFound => some "No release found for the specified version"
  | HandleOutcome.noNewRelease => some "No new release found"
  | HandleOutcome.alreadyLatest => some "You are using the latest version"
  | HandleOutcome.startUpdate _ => none

/-- Whether the outcome reaches `self.update(release)`; only that call
performs the archive download and any filesystem mutation. The other
outcomes return from `handle` directly, which exits cleanly with code 0. -/
def triggersUpdate : HandleOutcome → Bool
  | HandleOutcome.startUpdate _ => true
  | _ => false

/-- Result of invoking one interpreter candidate with `--version` through
`subprocess.check_output(..., shell=True)`: either the invocation raised
`CalledProcessError` (missing executable or non-zero exit), or it produced a
raw combined stdout/stderr string. -/
inductive ProbeResult
  | fails
  | outputs (raw : String)
deriving DecidableEq, Repr

/-- The whitespace characters `str.strip()` removes in Python: space, tab,
newline, carriage return, vertical tab and form feed. -/
def isPyWhitespace (c : Char) : Bool :=
  c = ' ' || c = '\t' || c = '\n' || c = '\r' || c = '\x0b' || c = '\x0c'

/-- `str.strip()` on a character list: drop whitespace from both ends. -/
def pyStripChars (cs : List Char) : List Char :=
  ((cs.dropWhile isPyWhitespace).reverse.dropWhile isPyWhitespace).reverse

/-- Python `str.strip()` with no argument. -/
def pyStrip (s : String) : String := String.mk (pyStripChars s.data)

/-- Consume a literal character sequence from the front of a character list,
returning the remainder on success. -/
def dropLiteral : List Char → List Char → Option (List Char)
  | [], cs => some cs
  | _ :: _, [] => none
  | l :: ls, c :: cs => if c = l then dropLiteral ls cs else none

/-- Longest digit run at the front of a character list, with the remainder. -/
def takeDigits : List Char → List Char × List Char
  | [] => ([], [])
  | c :: cs =>
    if c.isDigit then
      let r := takeDigits cs
      (c :: r.1, r.2)
    else ([], c :: cs)

/-- Decimal value of a digit run. -/
def digitsToNat (ds : List Char) : Nat :=
  ds.foldl (fun n c => 10 * n + (c.toNat - 48)) 0

/-- The regex `^Python (?P<major>\d+)\.(?P<minor>\d+)\..+$` of
`_which_python`, applied by `re.match` to the stripped probe output: the
literal `Python `, a digit run, a dot, a digit run, a dot, then at least one
remaining character; `.` never matches a newline and `$` only accepts the end
of the string, so the tail must be newline-free.  Returns the two captured
groups converted to numbers. -/
def parseVersionOutput (s : String) : Option (Nat × Nat) :=
  match dropLiteral ("Python ".toList) s.toList with
  | none => none
  | some rest =>
    let mj := takeDigits rest
    if mj.1 = [] then none
    else
      match mj.2 with
      | '.' :: r2 =>
        let mn := takeDigits r2
        if mn.1 = [] then none
        else
          match mn.2 with
          | '.' :: r4 =>
            if r4 ≠ [] ∧ r4.all (fun c => c ≠ '\n') then
              some (digitsToNat mj.1, digitsToNat mn.1)
            else none
          | _ => none
      | _ => none

/-- The scan loop of `_which_python` (lines 303-318): a failing invocation is
skipped; an output matching the version pattern with group tuple ≥ (3, 0)
(equivalently, major ≥ 3, since the minor group is a natural number) returns
that candidate immediately; any other successful invocation becomes the
fallback if none is set yet (`if fallback is None: fallback = executable`
runs whether or not the pattern matched). -/
def whichPythonGo : List (String × ProbeResult) → Option String → String
  | [], none => "python"
  | [], some fb => fb
  | (exe, res) :: rest, fb =>
    match res with
    | ProbeResult.fails => whichPythonGo rest fb
    | ProbeResult.outputs raw =>
      match parseVersionOutput (pyStrip raw) with
      | some (mj, _) =>
        if 3 ≤ mj then exe else whichPythonGo rest (some (fb.getD exe))
      | none => whichPythonGo rest (some (fb.getD exe))

/-- `SelfUpdateCommand._which_python` over an explicit list pairing each
candidate executable with the result its probe invocation would produce.
When the scan ends without a ≥ 3 match and no fallback was recorded, the
fixed literal `"python"` is returned (line 322). -/
def whichPython (probes : List (String × ProbeResult)) : String :=
  whichPythonGo probes none

/-- The candidate executables the source actually probes, in order
(`allowed_executables`, lines 296-298). -/
def pythonCandidates (windows : Bool) : List String :=
  if windows then ["python", "python3", "py.exe -3", "py.exe -2"]
  else ["python", "python3"]

/-- First candidate whose probe output matches the version pattern with
major ≥ 3 (characterisation used to state resolver theorems). -/
def firstGE3 : List (String × ProbeResult) → Option String
  | [] => none
  | (exe, res) :: rest =>
    match res with
    | ProbeResult.fails => firstGE3 rest
    | ProbeResult.outputs raw =>
      match parseVersionOutput (pyStrip raw) with
      | some (mj, _) => if 3 ≤ mj then some exe else firstGE3 rest
      | none => firstGE3 rest

/-- First candidate whose invocation succeeded at all, whether or not its
output matched the version pattern (what the code records as fallback). -/
def firstRan : List (String × ProbeResult) → Option String
  | [] => none
  | (exe, ProbeResult.outputs _) :: _ => some exe
  | (_, ProbeResult.fails) :: rest => firstRan rest

/-- Modelled from the claim wording, for comparison with `whichPython`:
first candidate whose output parsed as a version at all, regardless of the
major version.  The claim's fallback rule names this candidate. -/
def firstParsed : List (String × ProbeResult) → Option String
  | [] => none
  | (exe, res) :: rest =>
    match res with
    | ProbeResult.fails => firstParsed rest
    | ProbeResult.outputs raw =>
      match parseVersionOutput (pyStrip raw) with
      | some _ => some exe
      | none => firstParsed rest

/-- Modelled from the claim wording (claim C6), for comparison with
`whichPython`: return the first ≥ 3 parse, else the first candidate that
parsed at all, else the fixed default literal. -/
def resolverClaimed (probes : List (String × ProbeResult)) : String :=
  (firstGE3 probes).getD ((firstParsed probes).getD "python")

/-- The archive HTTP response as seen by `_update` (lines 198-222): the
optional `Content-Length` header value and the sequence of chunks that
successive `r.read(block_size)` calls return (the stream ends with an empty
read). Bytes are modelled as naturals. -/
structure ArchiveResponse where
  contentLength : Option Nat
  chunks : List (List Nat)
deriving DecidableEq, Repr

/-- Failure mode of the download phase modelled here: `int(meta["Content-Length"])`
raises when the header is absent (`meta[...]` yields no value and `int`
rejects it), before any byte of the body is read. -/
inductive DownloadFailure
  | missingLength
deriving DecidableEq, Repr

/-- What the streaming loop accumulated: the bytes written to the temp file,
the bytes fed to the running SHA-256 digest, and the successive values passed
to `bar.set_progress(current)`. -/
structure DownloadData where
  written : List Nat
  digestInput : List Nat
  progressReports : List Nat
deriving DecidableEq, Repr

/-- The `while True` loop of `_update` (lines 211-220): read a chunk; an
empty chunk breaks the loop; otherwise the chunk is appended to the file and
to the digest and the cumulative byte count is reported. -/
def streamChunks (current : Nat) : List (List Nat) → DownloadData
  | [] => ⟨[], [], []⟩
  | chunk :: rest =>
    if chunk = [] then ⟨[], [], []⟩
    else
      let cur := current + chunk.length
      let d := streamChunks cur rest
      ⟨chunk ++ d.written, chunk ++ d.digestInput, cur :: d.progressReports⟩

/-- The archive download of `_update`: `size = int(meta["Content-Length"])`
runs before the loop, so a response without the length header fails there and
no byte is streamed; with the header present the body is streamed in full. -/
def downloadArchive (r : ArchiveResponse) : Except DownloadFailure DownloadData :=
  match r.contentLength with
  | none => Except.error DownloadFailure.missingLength
  | some _ => Except.ok (streamChunks 0 r.chunks)

/-- `sys.platform` normalisation in `_get_release_name` (lines 255-257). -/
def fixPlatform (platform : String) : String :=
  if platform = "linux2" then "linux" else platform

/-- `SelfUpdateCommand._get_release_name`: `"poetry-{version}-{platform}"`. -/
def getReleaseName (version platform : String) : String :=
  "poetry-" ++ version ++ "-" ++ fixPlatform platform

/-- The checksum sidecar asset name (line 174): `"{release_name}.sha256sum"`. -/
def checksumAssetName (version platform : String) : String :=
  getReleaseName version platform ++ ".sha256sum"

/-- The archive asset name (line 189): `"{release_name}.tar.gz"`. -/
def archiveAssetName (version platform : String) : String :=
  getReleaseName version platform ++ ".tar.gz"

/-- `BASE_URL` (lines 61-62). -/
def baseUrl : String :=
  "https://github.com/python-poetry/poetry/releases/download"

/-- URL of the checksum sidecar fetch (line 179):
`base_url + "/{version}/{checksum}"`. -/
def checksumUrl (version platform : String) : String :=
  baseUrl ++ "/" ++ version ++ "/" ++ checksumAssetName version platform

/-- URL of the archive fetch (line 191): `base_url + "/{version}/{name}"`. -/
def archiveUrl (version platform : String) : String :=
  baseUrl ++ "/" ++ version ++ "/" ++ archiveAssetName version platform

/-- Expected digest extraction from the sidecar body (line 186):
`r.read().decode().strip()` removes whitespace from both ends. -/
def parseChecksumBody (body : String) : String := pyStrip body

/-- State of the two directories `update`/`_update` mutate: the library
directory `lib` and the backup directory `lib-backup`; `none` means the
directory does not exist, `some c` that it exists with content `c` (contents
abstracted to an arbitrary type with equality meaning byte-for-byte equal). -/
structure FS (α : Type) where
  lib : Option α
  backup : Option α
deriving DecidableEq, Repr

/-- The errors the modelled run can surface: the exceptions `_update` raises
(HTTP/urlopen failures, the hash-mismatch `RuntimeError`, extraction errors)
and the error `shutil.copytree` raises when its destination already exists
(the rollback copy target). -/
inductive Err
  | netError
  | hashMismatch
  | extractionError
  | fileExists
deriving DecidableEq, Repr

/-- How one run of `_update(version)` turns out, as a parameter: fail while
fetching either asset (before touching `lib`), fail the digest comparison
(before extraction), fail during extraction leaving `lib` in the given state
(`none` when the failure hit before any entry was created, `some p` when
entries were already extracted), or succeed with the new library content. -/
inductive Outcome (α : Type)
  | downloadFailure
  | hashMismatch
  | extractionFailure (libAfter : Option α)
  | success (newLib : α)
deriving DecidableEq, Repr

/-- Observable filesystem events of one `update` run, in program order. -/
inductive Ev
  | rmStaleBackup
  | cpLibToBackup
  | rmLib
  | fetchChecksum
  | fetchArchive
  | verifyFail
  | verifyOk
  | extractToLib
  | extractFail
  | rollbackCopy
  | rollbackCopyFail
  | rmBackupRollback
  | rmBackupCleanup
deriving DecidableEq, Repr

/-- Result of one modelled `update` run: the event trace, the final state of
the two directories, and the error that propagates to the caller (`none` on
success). -/
structure RunResult (α : Type) where
  trace : List Ev
  fs : FS α
  err : Option Err
deriving DecidableEq, Repr

/-- The backup phase of `update` (lines 137-143), run before `_update`:
delete a stale backup if present, then, if the library directory exists, copy
it to the backup path and delete the original. -/
def beginBackup {α : Type} (fs : FS α) : List Ev × FS α :=
  let s : List Ev × FS α :=
    if fs.backup.isSome then ([Ev.rmStaleBackup], { fs with backup := none })
    else ([], fs)
  match s.2.lib with
  | some c => (s.1 ++ [Ev.cpLibToBackup, Ev.rmLib], { lib := none, backup := some c })
  | none => s

/-- The body of `_update(version)` (lines 169-237) under a given outcome:
both fetches happen first, then the digest comparison, then extraction into
`self.lib`; only extraction touches the filesystem state modelled here. -/
def updateInner {α : Type} (fs : FS α) (out : Outcome α) :
    List Ev × FS α × Option Err :=
  match out with
  | Outcome.downloadFailure => ([], fs, some Err.netError)
  | Outcome.hashMismatch =>
    ([Ev.fetchChecksum, Ev.fetchArchive, Ev.verifyFail], fs, some Err.hashMismatch)
  | Outcome.extractionFailure libAfter =>
    ([Ev.fetchChecksum, Ev.fetchArchive, Ev.verifyOk, Ev.extractFail],
     { fs with lib := libAfter }, some Err.extractionError)
  | Outcome.success newLib =>
    ([Ev.fetchChecksum, Ev.fetchArchive, Ev.verifyOk, Ev.extractToLib],
     { fs with lib := some newLib }, none)

/-- `SelfUpdateCommand.update` (lines 133-157): backup phase, then `_update`
inside `try/except/finally`.  On an exception, if no backup exists the error
propagates; otherwise `copytree(lib_backup, lib)` runs — which fails with a
file-exists error when the library directory already exists (partial
extraction), in which case that new error propagates instead — then the
backup is removed and the original error is re-raised.  The `finally` block
removes the backup whenever it still exists. -/
def updateRun {α : Type} (fs0 : FS α) (out : Outcome α) : RunResult α :=
  let b := beginBackup fs0
  let i := updateInner b.2 out
  match i.2.2 with
  | none =>
    match i.2.1.backup with
    | some _ => ⟨b.1 ++ i.1 ++ [Ev.rmBackupCleanup], { i.2.1 with backup := none }, none⟩
    | none => ⟨b.1 ++ i.1, i.2.1, none⟩
  | some e =>
    match i.2.1.backup with
    | none => ⟨b.1 ++ i.1, i.2.1, some e⟩
    | some bc =>
      match i.2.1.lib with
      | some _ =>
        ⟨b.1 ++ i.1 ++ [Ev.rollbackCopyFail, Ev.rmBackupCleanup],
         { i.2.1 with backup := none }, some Err.fileExists⟩
      | none =>
        ⟨b.1 ++ i.1 ++ [Ev.rollbackCopy, Ev.rmBackupRollback],
         { lib := some bc, backup := none }, some e⟩

/-- Events that create, change or delete the library directory. -/
def mutatesLib (e : Ev) : Bool :=
  e == Ev.rmLib || e == Ev.extractToLib || e == Ev.extractFail ||
    e == Ev.rollbackCopy || e == Ev.rollbackCopyFail

/-- Whether an event is the digest comparison. -/
def isVerifyEv (e : Ev) : Bool :=
  e == Ev.verifyFail || e == Ev.verifyOk

/-- Whether no library mutation happens before the digest comparison in a
trace: every event strictly before the first verification event leaves the
library directory untouched. -/
def noLibChangeBeforeVerify (tr : List Ev) : Bool :=
  (tr.takeWhile (fun e => !isVerifyEv e)).all (fun e => !mutatesLib e)

/-- The module-level `BIN` template (lines 32-48): the body of the POSIX
launcher script.  Literal brace characters are written with their character
codes. -/
def BIN : String :=
  "# -*- coding: utf-8 -*-\n"
    ++ "import glob\n"
    ++ "import sys\n"
    ++ "import os\n"
    ++ "\n"
    ++ "lib = os.path.normpath(os.path.join(os.path.realpath(__file__), \"../..\", \"lib\"))\n"
    ++ "vendors = os.path.join(lib, \"poetry\", \"_vendor\")\n"
    ++ "current_vendors = os.path.join(\n"
    ++ "    vendors, \"py\x7b\x7d\".format(\".\".join(str(v) for v in sys.version_info[:2]))\n"
    ++ ")\n"
    ++ "sys.path.insert(0, lib)\n"
    ++ "sys.path.insert(0, current_vendors)\n"
    ++ "\n"
    ++ "if __name__ == \"__main__\":\n"
    ++ "    from poetry.console import main\n"
    ++ "    main()\n"

/-- The module-level `BAT` template (line 50), before `.format` fills the two
placeholders. -/
def BAT : String :=
  "@echo off\r\n\x7bpython_executable\x7d \"\x7bpoetry_bin\x7d\" %*\r\n"

/-- `BAT.format(python_executable=..., poetry_bin=...)`: each placeholder
occurs exactly once in the template, so formatting is this concatenation.
`poetry_bin` is the generated `bin/poetry` path with the value of the
`USERPROFILE` environment variable replaced by `%USERPROFILE%`
(`str.replace` replaces every occurrence; lines 271-276). -/
def batLauncher (pythonExecutable poetryBin userProfile : String) : String :=
  "@echo off\r\n" ++ pythonExecutable ++ " \""
    ++ poetryBin.replace userProfile "%USERPROFILE%" ++ "\" %*\r\n"

/-- The POSIX launcher content (lines 279-283): the shebang referencing the
resolved interpreter, then `BIN`. -/
def posixLauncher (pythonExecutable : String) : String :=
  "#!/usr/bin/env " ++ pythonExecutable ++ "\n" ++ BIN

/-- The `bin` directory as a map from file name to file content; `none`
means the file does not exist. -/
def FileStore : Type := String → Option String

/-- Writing a file (mode `"w"` / `write_text`): the previous content of that
name, if any, is replaced wholesale; other files are untouched. -/
def writeFile (name content : String) (st : FileStore) : FileStore :=
  fun k => if k = name then some content else st k

/-- `SelfUpdateCommand.make_bin` (lines 261-288) restricted to the bytes it
writes: on the batch platform it writes `poetry.bat` from the `BAT` template
and `poetry` with the bare `BIN` body; otherwise it writes `poetry` with the
shebang line prepended (the `chmod` of the executable bit does not change
file contents). -/
def makeBin (windows : Bool) (pythonExecutable poetryBin userProfile : String)
    (st : FileStore) : FileStore :=
  writeFile "poetry" (if windows then BIN else posixLauncher pythonExecutable)
    (if windows then
      writeFile "poetry.bat" (batLauncher pythonExecutable poetryBin userProfile) st
    else st)

/-- Membership is preserved by the insertion step. -/
theorem mem_insertDesc {a p : Pkg} {l : List Pkg} :
    a ∈ insertDesc p l ↔ a = p ∨ a ∈ l := by
  induction l with
  | nil => simp [insertDesc]
  | cons q qs ih =>
    simp only [insertDesc]
    split <;> (simp [List.mem_cons, ih]; try tauto)

/-- The insertion step preserves descending sortedness. -/
theorem sortedDesc_insertDesc {p : Pkg} {l : List Pkg} (h : SortedDesc l) :
    SortedDesc (insertDesc p l) := by
  induction l with
  | nil => simp [insertDesc, SortedDesc]
  | cons q qs ih =>
    simp only [SortedDesc, List.pairwise_cons] at h
    simp only [insertDesc]
    split
    · rename_i hle
      simp only [SortedDesc, List.pairwise_cons]
      refine ⟨fun b hb => ?_, ih h.2⟩
      rcases mem_insertDesc.1 hb with rfl | hb
      · exact hle
      · exact h.1 b hb
    · rename_i hgt
      push_neg at hgt
      simp only [SortedDesc, List.pairwise_cons]
      refine ⟨fun b hb => ?_, ?_⟩
      · rcases List.mem_cons.mp hb with rfl | hb
        · exact le_of_lt hgt
        · exact le_trans (h.1 b hb) (le_of_lt hgt)
      · exact ⟨h.1, h.2⟩

/-- Unfolding `sortDesc` on a cons cell. -/
theorem sortDesc_cons (q : Pkg) (qs : List Pkg) :
    sortDesc (q :: qs) = insertDesc q (sortDesc qs) := rfl

/-- The sort is a permutation as far as membership goes. -/
theorem mem_sortDesc {a : Pkg} {l : List Pkg} : a ∈ sortDesc l ↔ a ∈ l := by
  induction l with
  | nil => simp [sortDesc]
  | cons q qs ih =>
    rw [sortDesc_cons, mem_insertDesc, List.mem_cons, ih]

/-- The sort output is sorted descending by version. -/
theorem sortedDesc_sortDesc (l : List Pkg) : SortedDesc (sortDesc l) := by
  induction l with
  | nil => simp [sortDesc, SortedDesc]
  | cons q qs ih =>
    rw [sortDesc_cons]
    exact sortedDesc_insertDesc ih

/-- The sort preserves list length. -/
theorem length_sortDesc (l : List Pkg) : (sortDesc l).length = l.length := by
  induction l with
  | nil => rfl
  | cons q qs ih =>
    rw [sortDesc_cons]
    have : ∀ (p : Pkg) (m : List Pkg), (insertDesc p m).length = m.length + 1 := by
      intro p m
      induction m with
      | nil => rfl
      | cons x xs ihm =>
        simp only [insertDesc]
        split
        · simp [ihm]
        · rfl
    rw [this, ih]
    rfl

/-- In a descending-sorted non-empty list, the head has the largest version. -/
theorem sortedDesc_head_max {q : Pkg} {qs : List Pkg} (hs : SortedDesc (q :: qs)) :
    ∀ p ∈ q :: qs, p.version ≤ q.version := by
  rw [SortedDesc, List.pairwise_cons] at hs
  intro p hp
  rcases List.mem_cons.mp hp with rfl | hp
  · exact le_refl _
  · exact hs.1 p hp

/-- With `preview` unset, the walk comes back empty exactly when every
candidate is a prerelease. -/
theorem selectWalk_false_none_iff {l : List Pkg} :
    selectWalk false l = none ↔ ∀ p ∈ l, p.prerelease = true := by
  induction l with
  | nil => simp [selectWalk]
  | cons q qs ih =>
    simp only [selectWalk]
    by_cases hq : q.prerelease = true
    · simp [hq, ih]
    · simp [hq]

/-- With `preview` unset, a selected candidate is a non-prerelease member of
the walked list. -/
theorem selectWalk_false_some {l : List Pkg} {r : Pkg}
    (h : selectWalk false l = some r) : r ∈ l ∧ r.prerelease = false := by
  induction l with
  | nil => simp [selectWalk] at h
  | cons q qs ih =>
    simp only [selectWalk] at h
    by_cases hq : q.prerelease = true
    · rw [hq] at h
      simp at h
      rcases ih h with ⟨h1, h2⟩
      exact ⟨List.mem_cons_of_mem _ h1, h2⟩
    · rw [Bool.not_eq_true] at hq
      rw [hq] at h
      simp at h
      subst h
      exact ⟨List.mem_cons_self _ _, hq⟩

/-- With `preview` unset and a descending-sorted input, the selected
candidate has the largest version among the non-prereleases. -/
theorem selectWalk_false_max {l : List Pkg} {r : Pkg}
    (hs : SortedDesc l) (h : selectWalk false l = some r) :
    ∀ p ∈ l, p.prerelease = false → p.version ≤ r.version := by
  induction l with
  | nil => simp [selectWalk] at h
  | cons q qs ih =>
    simp only [SortedDesc, List.pairwise_cons] at hs
    simp only [selectWalk] at h
    by_cases hq : q.prerelease = true
    · rw [hq] at h
      simp at h
      intro p hp hpre
      rcases List.mem_cons.mp hp with rfl | hp
      · rw [hq] at hpre
        cases hpre
      · exact ih hs.2 h p hp hpre
    · rw [Bool.not_eq_true] at hq
      rw [hq] at h
      simp at h
      subst h
      intro p hp _
      rcases List.mem_cons.mp hp with rfl | hp
      · exact le_refl _
      · exact hs.1 p hp

/-- With `preview` set, the walk selects the head of the list outright: both
branches of the prerelease test select the current candidate. -/
theorem selectWalk_true_cons (p : Pkg) (ps : List Pkg) :
    selectWalk true (p :: ps) = some p := by
  simp only [selectWalk]
  by_cases hp : p.prerelease = true <;> simp [hp]

/-- Closed form of the resolver scan, generalised over the running fallback:
the first ≥ 3 match wins; otherwise the fallback (seeded by the first
successful invocation) wins; otherwise the literal default. -/
theorem whichPythonGo_eq (probes : List (String × ProbeResult)) (fb : Option String) :
    whichPythonGo probes fb =
      (firstGE3 probes).getD ((fb.or (firstRan probes)).getD "python") := by
  induction probes generalizing fb with
  | nil => cases fb <;> simp [whichPythonGo, firstGE3, firstRan]
  | cons pr rest ih =>
    obtain ⟨exe, res⟩ := pr
    cases res with
    | fails => simp [whichPythonGo, firstGE3, firstRan, ih]
    | outputs raw =>
      simp only [whichPythonGo, firstGE3, firstRan]
      cases hp : parseVersionOutput (pyStrip raw) with
      | none =>
        rw [ih]
        cases fb <;> simp
      | some v =>
        obtain ⟨mj, mn⟩ := v
        by_cases h3 : 3 ≤ mj
        · simp [h3]
        · cases fb <;> simp [h3, ih]

/-- A body whose chunks are all non-empty is streamed in full: the file and
the digest both receive exactly the concatenation of the chunks. -/
theorem streamChunks_full {chunks : List (List Nat)}
    (h : ∀ c ∈ chunks, c ≠ []) (cur : Nat) :
    (streamChunks cur chunks).written = chunks.flatten ∧
      (streamChunks cur chunks).digestInput = chunks.flatten := by
  induction chunks generalizing cur with
  | nil => simp [streamChunks]
  | cons c cs ih =>
    have hc : ¬(c = []) := h c (List.mem_cons_self _ _)
    simp only [streamChunks, if_neg hc]
    have hrec := ih (fun x hx => h x (List.mem_cons_of_mem _ hx)) (cur + c.length)
    simp [List.flatten, hrec.1, hrec.2]

/-- Claim C3: with the preview flag unset the version selector never returns
a prerelease: any selected release is a non-prerelease member of the
candidate list with the largest version among the non-prereleases (the first
non-prerelease of the descending-sorted list), and the selection is empty
exactly when the list is empty or every candidate is a prerelease. -/
theorem selector_never_prerelease (pkgs : List Pkg) :
    (∀ r, selectRelease false pkgs = some r →
      r.prerelease = false ∧ r ∈ pkgs ∧
        ∀ p ∈ pkgs, p.prerelease = false → p.version ≤ r.version) ∧
    (selectRelease false pkgs = none ↔ ∀ p ∈ pkgs, p.prerelease = true) := by
  constructor
  · intro r hr
    rw [selectRelease] at hr
    have hmem := selectWalk_false_some hr
    refine ⟨hmem.2, mem_sortDesc.mp hmem.1, fun p hp hpre => ?_⟩
    exact selectWalk_false_max (sortedDesc_sortDesc pkgs) hr p (mem_sortDesc.mpr hp) hpre
  · rw [selectRelease, selectWalk_false_none_iff]
    exact ⟨fun h p hp => h p (mem_sortDesc.mpr hp), fun h p hp => h p (mem_sortDesc.mp hp)⟩

/-- Witness for C3 at a concrete candidate list: the selector picks the
stable release of version 2 over the prerelease of version 1. -/
theorem selector_never_prerelease_witness :
    Pkg.prerelease ⟨2, false⟩ = false ∧
      (⟨2, false⟩ : Pkg) ∈ [(⟨1, true⟩ : Pkg), ⟨2, false⟩] :=
  ⟨((selector_never_prerelease [⟨1, true⟩, ⟨2, false⟩]).1 ⟨2, false⟩ rfl).1,
   ((selector_never_prerelease [⟨1, true⟩, ⟨2, false⟩]).1 ⟨2, false⟩ rfl).2.1⟩

/-- Claim C4: with the preview flag set, a non-empty candidate list always
yields a selection, and the selected release carries the largest version of
the whole candidate set, prerelease or not. -/
theorem selector_preview_highest (pkgs : List Pkg) (h : pkgs ≠ []) :
    (selectRelease true pkgs).isSome = true ∧
      ∀ r, selectRelease true pkgs = some r →
        r ∈ pkgs ∧ ∀ p ∈ pkgs, p.version ≤ r.version := by
  obtain ⟨q, qs, hq⟩ : ∃ q qs, sortDesc pkgs = q :: qs := by
    cases hs : sortDesc pkgs with
    | nil =>
      exfalso
      apply h
      have hl := length_sortDesc pkgs
      rw [hs] at hl
      exact List.length_eq_zero.mp hl.symm
    | cons q qs => exact ⟨q, qs, rfl⟩
  constructor
  · rw [selectRelease, hq, selectWalk_true_cons]
    rfl
  · intro r hr
    rw [selectRelease, hq, selectWalk_true_cons, Option.some.injEq] at hr
    subst hr
    have hsor := sortedDesc_sortDesc pkgs
    rw [hq] at hsor
    refine ⟨mem_sortDesc.mp (hq ▸ List.mem_cons_self q qs), fun p hp => ?_⟩
    exact sortedDesc_head_max hsor p (hq ▸ mem_sortDesc.mpr hp)

/-- Witness for C4 at a concrete candidate list of two prereleases. -/
theorem selector_preview_highest_witness :
    (selectRelease true [(⟨1, true⟩ : Pkg), ⟨2, true⟩]).isSome = true :=
  (selector_preview_highest [⟨1, true⟩, ⟨2, true⟩] (by decide)).1

/-- Claim C5: when the selected release matches the running version, `handle`
takes the already-latest no-op path, which never reaches `update` (so no
archive download and no filesystem change happens and the command returns
cleanly), and the three no-op outcomes carry three pairwise distinct
user-facing messages. -/
theorem already_latest_no_op (cur : Nat) (preview : Bool) (pkgs : List Pkg)
    (r : Pkg) (hsel : selectRelease preview pkgs = some r)
    (hver : r.version = cur) :
    handle cur preview pkgs = HandleOutcome.alreadyLatest ∧
    triggersUpdate (handle cur preview pkgs) = false ∧
    handleMessage HandleOutcome.alreadyLatest ≠ handleMessage HandleOutcome.noNewRelease ∧
    handleMessage HandleOutcome.alreadyLatest ≠ handleMessage HandleOutcome.noReleaseFound ∧
    handleMessage HandleOutcome.noNewRelease ≠ handleMessage HandleOutcome.noReleaseFound := by
  obtain ⟨q, qs, rfl⟩ : ∃ q qs, pkgs = q :: qs := by
    cases pkgs with
    | nil =>
      rw [selectRelease] at hsel
      simp [sortDesc, selectWalk] at hsel
    | cons q qs => exact ⟨q, qs, rfl⟩
  have hh : handle cur preview (q :: qs) = HandleOutcome.alreadyLatest := by
    simp [handle, hsel, hver]
  refine ⟨hh, by rw [hh]; rfl, ?_, ?_, ?_⟩ <;> decide

/-- Witness for C5: a single stable candidate equal to the running version
takes the already-latest path. -/
theorem already_latest_no_op_witness :
    handle 2 false [(⟨2, false⟩ : Pkg)] = HandleOutcome.alreadyLatest :=
  (already_latest_no_op 2 false [⟨2, false⟩] ⟨2, false⟩ rfl rfl).1

/-- Counterexample to claim C6 as stated: with a first candidate whose
invocation succeeds but whose output does not parse and a second whose
output parses as 2.7.1, the claim's rule (first candidate that parsed, here
the second) names a different executable than the code returns (the first,
because the fallback is recorded for any successful invocation whether or
not the pattern matched). -/
theorem which_python_fallback_counterexample :
    whichPython [("a", ProbeResult.outputs "garbage"),
        ("b", ProbeResult.outputs "Python 2.7.1")] = "a" ∧
    resolverClaimed [("a", ProbeResult.outputs "garbage"),
        ("b", ProbeResult.outputs "Python 2.7.1")] = "b" ∧
    whichPython [("a", ProbeResult.outputs "garbage"),
        ("b", ProbeResult.outputs "Python 2.7.1")] ≠
      resolverClaimed [("a", ProbeResult.outputs "garbage"),
        ("b", ProbeResult.outputs "Python 2.7.1")] := by
  refine ⟨rfl, rfl, ?_⟩
  decide

/-- Claim C6 as amended: the resolver (a total function, hence it never
raises) returns the first candidate whose probed output parses with major
version ≥ 3; failing that, the first candidate whose invocation succeeded at
all, whether or not its output parsed; and the fixed literal default only
when every invocation failed.  The three concrete examples of the claim hold
as stated. -/
theorem which_python_resolution (probes : List (String × ProbeResult)) :
    whichPython probes = (firstGE3 probes).getD ((firstRan probes).getD "python") ∧
    whichPython [("e1", ProbeResult.fails), ("e2", ProbeResult.outputs "Python 2.7.18"),
        ("e3", ProbeResult.outputs "Python 3.9.1")] = "e3" ∧
    whichPython [("e1", ProbeResult.fails),
        ("e2", ProbeResult.outputs "Python 2.7.18")] = "e2" ∧
    whichPython [("e1", ProbeResult.fails), ("e2", ProbeResult.fails)] = "python" := by
  refine ⟨?_, rfl, rfl, rfl⟩
  rw [whichPython, whichPythonGo_eq]
  rfl

/-- Counterexample to claim C7 as stated: an archive response without the
length header makes the downloader fail before streaming any byte
(`int(meta["Content-Length"])` rejects the missing value), instead of
streaming and digesting the full body with degraded progress reporting. -/
theorem missing_length_counterexample :
    downloadArchive ⟨none, [[1, 2, 3]]⟩ =
      Except.error DownloadFailure.missingLength := rfl

/-- Claim C7 as amended: the length header is required.  When it is present
the downloader streams the full body (all chunks up to the terminating empty
read), writing and digesting exactly the received bytes; when it is absent
the download raises before any byte is streamed. -/
theorem download_requires_length (r : ArchiveResponse) (n : Nat)
    (hlen : r.contentLength = some n) (hchunks : ∀ c ∈ r.chunks, c ≠ []) :
    downloadArchive r = Except.ok (streamChunks 0 r.chunks) ∧
      (streamChunks 0 r.chunks).written = r.chunks.flatten ∧
      (streamChunks 0 r.chunks).digestInput = r.chunks.flatten := by
  have hs := streamChunks_full hchunks 0
  refine ⟨?_, hs.1, hs.2⟩
  rw [downloadArchive, hlen]

/-- Witness for C7 (amended) at a concrete two-chunk response. -/
theorem download_requires_length_witness :
    downloadArchive ⟨some 3, [[1], [2, 3]]⟩ =
        Except.ok (streamChunks 0 [[1], [2, 3]]) ∧
      (streamChunks 0 [[1], [2, 3]]).written = [[1], [2, 3]].flatten ∧
      (streamChunks 0 [[1], [2, 3]]).digestInput = [[1], [2, 3]].flatten :=
  download_requires_length ⟨some 3, [[1], [2, 3]]⟩ 3 rfl (by decide)

/-- Counterexample to claim C8 as stated: the checksum sidecar asset the code
requests is `<asset>.sha256sum`, not `<asset>.tar.gz.sha256sum` — the
`.tar.gz` infix the claim asserts is absent. -/
theorem checksum_asset_name_counterexample :
    checksumAssetName "1.2.0" "linux" = "poetry-1.2.0-linux.sha256sum" ∧
    archiveAssetName "1.2.0" "linux" ++ ".sha256sum" =
      "poetry-1.2.0-linux.tar.gz.sha256sum" ∧
    checksumAssetName "1.2.0" "linux" ≠
      archiveAssetName "1.2.0" "linux" ++ ".sha256sum" := by
  refine ⟨rfl, rfl, ?_⟩
  decide

/-- Claim C8 as amended: for every version and platform the archive is
fetched from `<base_url>/<version>/<asset>.tar.gz` and the checksum sidecar
from `<base_url>/<version>/<asset>.sha256sum`, where the asset name is
`poetry-<version>-<platform>` with `linux2` normalised to `linux`; the
sidecar body is decoded and stripped of surrounding whitespace to obtain the
expected digest. -/
theorem release_asset_urls (version platform : String) :
    archiveUrl version platform =
      baseUrl ++ "/" ++ version ++ "/" ++
        (getReleaseName version platform ++ ".tar.gz") ∧
    checksumUrl version platform =
      baseUrl ++ "/" ++ version ++ "/" ++
        (getReleaseName version platform ++ ".sha256sum") ∧
    getReleaseName version platform =
      "poetry-" ++ version ++ "-" ++ fixPlatform platform ∧
    fixPlatform "linux2" = "linux" ∧
    parseChecksumBody " a3f5b\n" = "a3f5b" :=
  ⟨rfl, rfl, rfl, rfl, rfl⟩

/-- Claim C9: the launcher writer is idempotent — with the resolved
interpreter, the launcher path, the profile prefix and the platform all
fixed, running `make_bin` twice leaves every file of the `bin` directory
with byte-identical content to running it once, on both platforms. -/
theorem make_bin_idempotent (windows : Bool)
    (pythonExecutable poetryBin userProfile : String) (st : FileStore) :
    makeBin windows pythonExecutable poetryBin userProfile
        (makeBin windows pythonExecutable poetryBin userProfile st) =
      makeBin windows pythonExecutable poetryBin userProfile st := by
  funext k
  cases windows <;>
    simp only [makeBin, writeFile, Bool.false_eq_true, if_false, if_true] <;>
    by_cases h1 : k = "poetry" <;> by_cases h2 : k = "poetry.bat" <;>
      simp [h1, h2]

/-- Counterexample to claim C1 as stated: with a previous install of content
`0` and an extraction failure that leaves partially extracted content `1` in
the library directory, the run neither restores the pre-update snapshot nor
re-raises the extraction failure — the rollback `copytree` finds its
destination occupied and its file-exists error propagates instead. -/
theorem rollback_after_midway_extraction_counterexample :
    ¬ ((updateRun (α := Nat) ⟨some 0, none⟩
          (Outcome.extractionFailure (some 1))).fs.lib = some 0 ∧
       (updateRun (α := Nat) ⟨some 0, none⟩
          (Outcome.extractionFailure (some 1))).err = some Err.extractionError) := by
  decide

/-- Claim C1 as amended: suppose a previous install existed, so the backup
was taken.  If extraction fails while the library directory does not yet
exist (no entry was created), the library is restored byte-for-byte to its
pre-update content, the backup directory is gone, and the original
extraction failure propagates.  If entries were already extracted, the
restore copy itself fails: the library keeps the partial content, a
file-exists error propagates, and the backup directory is still gone
(removed by the final cleanup). -/
theorem extraction_failure_rollback {α : Type} (c p : α) (bk : Option α) :
    ((updateRun ⟨some c, bk⟩ (Outcome.extractionFailure none)).fs =
        ⟨some c, none⟩ ∧
      (updateRun ⟨some c, bk⟩ (Outcome.extractionFailure none)).err =
        some Err.extractionError) ∧
    ((updateRun ⟨some c, bk⟩ (Outcome.extractionFailure (some p))).fs =
        ⟨some p, none⟩ ∧
      (updateRun ⟨some c, bk⟩ (Outcome.extractionFailure (some p))).err =
        some Err.fileExists) := by
  cases bk <;> exact ⟨⟨rfl, rfl⟩, ⟨rfl, rfl⟩⟩

/-- Counterexample to claim C2 as stated: in the run that detects the digest
mismatch with a prior install present, the library directory is removed
(`rmLib`, part of the backup phase) strictly before the verification event —
verification does not precede the backup/mutation phase, and at the moment
of detection the library directory has already been vacated. -/
theorem hash_mismatch_order_counterexample :
    noLibChangeBeforeVerify
        (updateRun (α := Nat) ⟨some 0, none⟩ Outcome.hashMismatch).trace = false ∧
    (updateRun (α := Nat) ⟨some 0, none⟩ Outcome.hashMismatch).trace =
      [Ev.cpLibToBackup, Ev.rmLib, Ev.fetchChecksum, Ev.fetchArchive,
        Ev.verifyFail, Ev.rollbackCopy, Ev.rmBackupRollback] :=
  ⟨rfl, rfl⟩

/-- Claim C2 as amended: a digest mismatch raises strictly before any
extraction (the trace of a mismatch run contains no extraction event), but
after the backup phase, which precedes download and verification; the
rollback then restores the library, so the error reaches the caller with the
library content equal to its pre-update content, no backup left, and the
mismatch error itself propagated. -/
theorem hash_mismatch_no_extraction {α : Type} (fs0 : FS α) :
    (updateRun fs0 Outcome.hashMismatch).fs.lib = fs0.lib ∧
    (updateRun fs0 Outcome.hashMismatch).fs.backup = none ∧
    (updateRun fs0 Outcome.hashMismatch).err = some Err.hashMismatch ∧
    ((updateRun fs0 Outcome.hashMismatch).trace.all
      (fun e => !(e == Ev.extractToLib || e == Ev.extractFail))) = true := by
  obtain ⟨lib0, bk0⟩ := fs0
  cases lib0 <;> cases bk0 <;> exact ⟨rfl, rfl, rfl, rfl⟩

/-- Claim C10: on every exit path of the modelled `update` run — success,
rollback after a failure, failure with no backup present, and failure of the
rollback restoration itself — the backup directory no longer exists once the
operation returns or raises. -/
theorem backup_always_removed {α : Type} (fs0 : FS α) (out : Outcome α) :
    (updateRun fs0 out).fs.backup = none := by
  obtain ⟨lib0, bk0⟩ := fs0
  cases out with
  | downloadFailure => cases lib0 <;> cases bk0 <;> rfl
  | hashMismatch => cases lib0 <;> cases bk0 <;> rfl
  | extractionFailure la => cases lib0 <;> cases bk0 <;> cases la <;> rfl
  | success nl => cases lib0 <;> cases bk0 <;> rfl

end Poetry
